import Mathlib

/-!
Verification of the twitter-ui video feed against its specification.

The development shallowly embeds the TypeScript/React-Native source:

* `processedFeedItems` (home feed module): the pure mapping from the raw
  post fixture entries and the user fixture to the feed view-model.
* `HomeScreen` rendering: empty-feed branch vs. the video list, the
  per-card `isActive` computation, and the `onViewableItemsChanged`
  viewability callback updating `activeVideoId`.
* `VideoFeedItem` component: its local state (`isPlaying`, `isLoading`,
  `error`, `currentVideo`), the `isActive` effect, the initial-data
  effect, `handlePlayPause`, `handleSimilarVideoSelect`, and the error
  handlers.  Imperative calls on the video handle (`playAsync`,
  `pauseAsync`, `loadAsync`, `unloadAsync`) are modelled as emitted
  commands; `console` output is modelled as emitted log lines.

JavaScript optional string fields are modelled as `Option String`
(`none` = absent/undefined); JS truthiness of such a field is
`jsTruthy` (present and non-empty).
-/

/-- JS truthiness of an optional string: defined and non-empty. -/
def jsTruthy : Option String → Bool
  | some s => !(s == "")
  | none => false

/-- JS `a || b` on two optional strings (the result may still be falsy). -/
def jsOr (a b : Option String) : Option String :=
  if jsTruthy a then a else b

/-- JS `a || d` where `d` is a (truthy) string default. -/
def jsOrD (a : Option String) (d : String) : String :=
  match a with
  | some s => if s == "" then d else s
  | none => d

/-- An entry of the `users.json` fixture, with the fields the feed reads. -/
structure User where
  id : String
  name : String
  handle : String
  profile_picture : String
deriving Repr, DecidableEq

/-- A raw entry of the `posts.json` fixture, with the fields the feed
mapping reads.  Every field is optional, as on an untyped JSON object. -/
structure PostItem where
  contentId : Option String
  poster_id : Option String
  authorName : Option String
  authorHandle : Option String
  authorImageUrl : Option String
  media_type : Option String
  media_url : Option String
  mediaUrl : Option String
  thumbnail_url : Option String
  message : Option String
deriving Repr, DecidableEq

/-- The `VideoPlayerData` interface of `VideoFeedItem.tsx`. -/
structure VideoPlayerData where
  id : String
  videoSource : String
  posterSource : Option String
  authorName : String
  authorHandle : String
  caption : String
deriving Repr, DecidableEq

/-- The `SimilarVideoData` interface of `SimilarVideoThumbnail.tsx`. -/
structure SimilarVideoData where
  id : String
  media_url : String
  thumbnail_url : Option String
  title : String
deriving Repr, DecidableEq

/-- The body of the `.map` callback inside `processedFeedItems`: resolve
the author, then keep the item only if it is a video with a truthy
media url and a truthy `contentId`. -/
def mapPostItem (users : List User) (item : PostItem) : Option VideoPlayerData :=
  let author : String × String :=
    match item.poster_id with
    | some pid =>
      match users.find? (fun u => u.id == pid) with
      | some u => (u.name, u.handle)
      | none => ("Unknown Author", "unknownhandle")
    | none =>
      match item.authorName with
      | some an => (an, jsOrD item.authorHandle "unknownhandle")
      | none => ("Unknown Author", "unknownhandle")
  if (item.media_type == some "video")
      && jsTruthy (jsOr item.media_url item.mediaUrl)
      && jsTruthy item.contentId then
    some
      { id := item.contentId.getD ""
        videoSource := (jsOr item.media_url item.mediaUrl).getD ""
        posterSource := if jsTruthy item.thumbnail_url then item.thumbnail_url else none
        authorName := author.1
        authorHandle := author.2
        caption := jsOrD item.message "No caption" }
  else
    none

/-- `processedFeedItems` of the home feed module, parameterised by the
contents of the `posts.json` and `users.json` fixtures (the fixture
files themselves are not part of the sources): map each raw post
through `mapPostItem` and drop the `null` results. -/
def processedFeedItems (posts : List PostItem) (users : List User) : List VideoPlayerData :=
  posts.filterMap (mapPostItem users)

/-- The `isActive` prop computed in `renderVideoItem`:
`item.id === activeVideoId` (strict equality; `activeVideoId` may be
`null`, in which case no item matches). -/
def isActiveFor (activeVideoId : Option String) (item : VideoPlayerData) : Bool :=
  match activeVideoId with
  | some a => item.id == a
  | none => false

/-- `renderVideoItem`: each processed item is rendered as a
`VideoFeedItem` card receiving its data and its `isActive` flag. -/
def renderVideoItem (activeVideoId : Option String) (item : VideoPlayerData) :
    VideoPlayerData × Bool :=
  (item, isActiveFor activeVideoId item)

theorem countP_isActiveFor_le_one (active : Option String) :
    ∀ items : List VideoPlayerData, (items.map VideoPlayerData.id).Nodup →
      items.countP (fun i => isActiveFor active i) ≤ 1 := by
  intro items
  induction items with
  | nil => intro _; simp
  | cons x xs ih =>
    intro h
    rw [List.map_cons, List.nodup_cons] at h
    obtain ⟨hx, hxs⟩ := h
    rw [List.countP_cons]
    by_cases hpx : isActiveFor active x = true
    · have ha : active = some x.id := by
        unfold isActiveFor at hpx
        cases active with
        | none => simp at hpx
        | some a =>
          simp only [beq_iff_eq] at hpx
          rw [hpx]
      have h0 : xs.countP (fun i => isActiveFor active i) = 0 := by
        rw [List.countP_eq_zero]
        intro y hy
        subst ha
        unfold isActiveFor
        simp only [beq_iff_eq, decide_eq_true_eq]
        intro heq
        exact hx (heq ▸ List.mem_map_of_mem VideoPlayerData.id hy)
      rw [h0, hpx]
      simp
    · have hxs' := ih hxs
      have hfalse : isActiveFor active x = false := by
        simpa using hpx
      rw [hfalse]
      simpa using hxs'

/-- A command issued on the `expo-av` video handle (`videoRef.current`). -/
inductive VCmd where
  | play
  | pause
  | load (uri : String) (shouldPlay : Bool)
  | unload
deriving Repr, DecidableEq

/-- The local state of one `VideoFeedItem` component: whether the video
handle is mounted (`videoRef.current` non-null), and the `isPlaying`,
`isLoading`, `error` and `currentVideo` state hooks. -/
structure VState where
  mounted : Bool
  isPlaying : Bool
  isLoading : Bool
  error : Option String
  currentVideo : VideoPlayerData
deriving Repr, DecidableEq

/-- The `isActive` effect of `VideoFeedItem` (success path of the
promises): with no mounted handle it does nothing; otherwise, when
active it calls `playAsync` and sets `isPlaying` to true, when inactive
it calls `pauseAsync` and sets `isPlaying` to false. -/
def isActiveEffect (isActive : Bool) (s : VState) : VState × List VCmd :=
  if !s.mounted then
    (s, [])
  else if isActive then
    ({ s with isPlaying := true }, [VCmd.play])
  else
    ({ s with isPlaying := false }, [VCmd.pause])

/-- The `initialVideoData` effect of `VideoFeedItem`: on a new
`initialVideoData` prop it resets `currentVideo`, shows loading, resets
`isPlaying`, and, if the handle is mounted, calls `unloadAsync` then
`loadAsync` with `shouldPlay: false`. -/
def initialDataEffect (initialVideoData : VideoPlayerData) (s : VState) : VState × List VCmd :=
  let s' := { s with
    currentVideo := initialVideoData
    isLoading := true
    isPlaying := false }
  if s.mounted then
    (s', [VCmd.unload, VCmd.load initialVideoData.videoSource false])
  else
    (s', [])

/-- `handlePlayPause` of `VideoFeedItem`: with no mounted handle it
returns; when playing it calls `pauseAsync` and sets `isPlaying` to
false; otherwise it calls `playAsync` and sets `isPlaying` to true. -/
def handlePlayPause (s : VState) : VState × List VCmd :=
  if !s.mounted then
    (s, [])
  else if s.isPlaying then
    ({ s with isPlaying := false }, [VCmd.pause])
  else
    ({ s with isPlaying := true }, [VCmd.play])

/-- `handleSimilarVideoSelect` of `VideoFeedItem`: spread the previous
`currentVideo` and overwrite `id`, `videoSource`, `posterSource` and
`caption` from the selected similar video, set loading, and, if the
handle is mounted, call `unloadAsync` then `loadAsync` with
`shouldPlay: isActive && isPlaying`. -/
def handleSimilarVideoSelect (isActive : Bool) (selectedVideo : SimilarVideoData)
    (s : VState) : VState × List VCmd :=
  let cv := s.currentVideo
  let s' := { s with
    currentVideo :=
      { cv with
        id := selectedVideo.id
        videoSource := selectedVideo.media_url
        posterSource := selectedVideo.thumbnail_url
        caption := selectedVideo.title }
    isLoading := true }
  if s.mounted then
    (s', [VCmd.unload, VCmd.load selectedVideo.media_url (isActive && s.isPlaying)])
  else
    (s', [])

/-- The `onError` handler of the `Video` element: record the failure
message in the `error` state, clear the loading flag, and log. -/
def videoOnError (e : String) (s : VState) : VState × List String :=
  ({ s with error := some ("Failed to load video. " ++ e), isLoading := false },
   ["Video Load Error: " ++ e])

/-- The `status.error` branch of `onPlaybackStatusUpdate`: record the
error message, clear the loading flag, and log. -/
def playbackStatusError (err : String) (s : VState) : VState × List String :=
  ({ s with error := some ("Video Error: " ++ err), isLoading := false },
   ["Video Playback Error: " ++ err])

/-- State read by `CustomDrawerContent` (the screen holding the image
`onError` handlers). -/
structure DrawerState where
  currentUserId : Option String
  currentUser : Option User
  authorizedUsers : List User
deriving Repr, DecidableEq

/-- An image `onError` handler in `CustomDrawerContent`:
`(e) => console.log("Failed to load image", ...)` — it only logs and
changes no state. -/
def imageOnError (e : String) (s : DrawerState) : DrawerState × List String :=
  (s, ["Failed to load image " ++ e])

/-- A `ViewToken` as consumed by `onViewableItemsChanged`: the
`isViewable` flag and the (possibly absent) rendered item. -/
structure ViewToken where
  isViewable : Bool
  item : Option VideoPlayerData
deriving Repr, DecidableEq

/-- Initial value of the `activeVideoId` state hook in `HomeScreen`:
`useState<string | null>(null)`. -/
def initialActiveVideoId : Option String := none

/-- The `onViewableItemsChanged` callback of `HomeScreen`: when the
viewable-items list is non-empty and its first entry is viewable and
carries an item, set `activeVideoId` to that item's id; otherwise leave
the state unchanged. -/
def onViewableItemsChanged (viewableItems : List ViewToken)
    (activeVideoId : Option String) : Option String :=
  match viewableItems with
  | [] => activeVideoId
  | firstViewableItem :: _ =>
    if firstViewableItem.isViewable then
      match firstViewableItem.item with
      | some it => some it.id
      | none => activeVideoId
    else
      activeVideoId

/-- What `HomeScreen` renders: either the empty-feed message view or
the video list of cards, each with its `isActive` flag. -/
inductive HomeRender where
  | emptyFeed (text subText : String)
  | feedList (cards : List (VideoPlayerData × Bool))
deriving Repr, DecidableEq

/-- The render function of `HomeScreen`: the empty-feed view when
`processedFeedItems` is empty, otherwise the `FlatList` of
`renderVideoItem` cards. -/
def homeScreen (items : List VideoPlayerData) (activeVideoId : Option String) : HomeRender :=
  if items.length == 0 then
    HomeRender.emptyFeed "No videos available at the moment."
      "Please check back later or ensure 'dummy/posts.json' has video entries."
  else
    HomeRender.feedList (items.map (renderVideoItem activeVideoId))

/-- A sample processed video item. -/
def vA : VideoPlayerData :=
  { id := "a", videoSource := "http://a.mp4", posterSource := none,
    authorName := "Alice", authorHandle := "alice", caption := "first" }

/-- A second sample processed video item, with a distinct id. -/
def vB : VideoPlayerData :=
  { id := "b", videoSource := "http://b.mp4", posterSource := some "http://b.jpg",
    authorName := "Bob", authorHandle := "bob", caption := "second" }

/-- A sample `VideoFeedItem` state with a mounted handle, not playing. -/
def sState0 : VState :=
  { mounted := true, isPlaying := false, isLoading := true, error := none,
    currentVideo := vA }

/-- C1: in every rendered feed state whose processed items have
pairwise-distinct ids, at most one `VideoFeedItem` card receives
`isActive = true` (the one whose id equals `activeVideoId`). -/
theorem feed_at_most_one_active_card (items : List VideoPlayerData)
    (activeVideoId : Option String)
    (h : (items.map VideoPlayerData.id).Nodup) :
    ((items.map (renderVideoItem activeVideoId)).countP (fun c => c.2)) ≤ 1 := by
  rw [List.countP_map]
  exact countP_isActiveFor_le_one activeVideoId items h

/-- Witness for C1 at a concrete two-item feed. -/
theorem feed_at_most_one_active_card_witness :
    (([vA, vB].map VideoPlayerData.id).Nodup) ∧
    (([vA, vB].map (renderVideoItem (some "a"))).countP (fun c => c.2)) ≤ 1 :=
  ⟨by decide, feed_at_most_one_active_card [vA, vB] (some "a") (by decide)⟩

/-- C2: with a mounted video handle, the `isActive` effect issues a play
command and sets `isPlaying` to true when the prop turns true, and
issues a pause command and sets `isPlaying` to false when it turns
false. -/
theorem videoFeedItem_active_plays_inactive_pauses (s : VState)
    (h : s.mounted = true) :
    ((isActiveEffect true s).2 = [VCmd.play]
      ∧ (isActiveEffect true s).1.isPlaying = true)
    ∧ ((isActiveEffect false s).2 = [VCmd.pause]
      ∧ (isActiveEffect false s).1.isPlaying = false) := by
  unfold isActiveEffect
  rw [h]
  simp

/-- Witness for C2 at the sample mounted state. -/
theorem videoFeedItem_active_plays_inactive_pauses_witness :
    sState0.mounted = true ∧
    (((isActiveEffect true sState0).2 = [VCmd.play]
      ∧ (isActiveEffect true sState0).1.isPlaying = true)
    ∧ ((isActiveEffect false sState0).2 = [VCmd.pause]
      ∧ (isActiveEffect false sState0).1.isPlaying = false)) :=
  ⟨by decide, videoFeedItem_active_plays_inactive_pauses sState0 (by decide)⟩

/-- C3 counterexample: at a concrete mounted state, the activation
effect issues only a play command on becoming active and only a pause
command on becoming inactive — it issues no load and no unload
command, refuting the claim that activation change loads/unloads the
card's video resource. -/
theorem activation_change_issues_no_load_unload :
    (isActiveEffect true sState0).2 = [VCmd.play]
    ∧ (isActiveEffect false sState0).2 = [VCmd.pause]
    ∧ VCmd.unload ∉ (isActiveEffect false sState0).2
    ∧ VCmd.load vA.videoSource false ∉ (isActiveEffect true sState0).2
    ∧ VCmd.load vA.videoSource true ∉ (isActiveEffect true sState0).2 := by
  refine ⟨rfl, rfl, by decide, by decide, by decide⟩

/-- C3 amended: with a mounted handle the feed reacts to a card's
activation change by issuing a play command when the card becomes
active and a pause command when it becomes inactive; the unload/load
pair is issued when the card's video data changes (the
`initialVideoData` effect), not by the activation policy. -/
theorem activation_plays_data_change_loads (s : VState) (h : s.mounted = true) :
    (isActiveEffect true s).2 = [VCmd.play]
    ∧ (isActiveEffect false s).2 = [VCmd.pause]
    ∧ (∀ d : VideoPlayerData,
        (initialDataEffect d s).2 = [VCmd.unload, VCmd.load d.videoSource false]) := by
  unfold isActiveEffect initialDataEffect
  rw [h]
  simp

/-- Witness for the amended C3 at the sample mounted state. -/
theorem activation_plays_data_change_loads_witness :
    sState0.mounted = true ∧
    ((isActiveEffect true sState0).2 = [VCmd.play]
    ∧ (isActiveEffect false sState0).2 = [VCmd.pause]
    ∧ (∀ d : VideoPlayerData,
        (initialDataEffect d sState0).2 = [VCmd.unload, VCmd.load d.videoSource false])) :=
  ⟨by decide, activation_plays_data_change_loads sState0 (by decide)⟩

/-- The C4 claim's mapping rule, written from the spec claim's words:
keep the video entries with a truthy media url and a truthy
`contentId`; the author fields are resolved from the users fixture via
`poster_id`, defaulting to "Unknown Author"/"unknownhandle" when no
matching user exists. -/
def specMapPostItem (users : List User) (item : PostItem) : Option VideoPlayerData :=
  if (item.media_type == some "video")
      && (jsTruthy item.media_url || jsTruthy item.mediaUrl)
      && jsTruthy item.contentId then
    some
      { id := item.contentId.getD ""
        videoSource := (jsOr item.media_url item.mediaUrl).getD ""
        posterSource := if jsTruthy item.thumbnail_url then item.thumbnail_url else none
        authorName :=
          match item.poster_id.bind (fun pid => users.find? (fun u => u.id == pid)) with
          | some u => u.name
          | none => "Unknown Author"
        authorHandle :=
          match item.poster_id.bind (fun pid => users.find? (fun u => u.id == pid)) with
          | some u => u.handle
          | none => "unknownhandle"
        caption := jsOrD item.message "No caption" }
  else
    none

/-- The feed view-model the C4 claim describes, over given fixture
contents. -/
def specProcessedFeedItems (posts : List PostItem) (users : List User) :
    List VideoPlayerData :=
  posts.filterMap (specMapPostItem users)

/-- A video post of the alternative fixture shape: no `poster_id`,
author fields carried on the item itself. -/
def legacyPost : PostItem :=
  { contentId := some "c1", poster_id := none, authorName := some "Alice",
    authorHandle := some "alice", authorImageUrl := none,
    media_type := some "video", media_url := some "http://v.mp4",
    mediaUrl := none, thumbnail_url := none, message := some "hi" }

/-- The C4 amended mapping rule: as the claim states it, except that a
post with no `poster_id` but with an `authorName` string gets its
author fields from the item itself (`authorHandle` defaulting to
"unknownhandle"). -/
def specMapPostItemAmended (users : List User) (item : PostItem) : Option VideoPlayerData :=
  if (item.media_type == some "video")
      && (jsTruthy item.media_url || jsTruthy item.mediaUrl)
      && jsTruthy item.contentId then
    some
      { id := item.contentId.getD ""
        videoSource := (jsOr item.media_url item.mediaUrl).getD ""
        posterSource := if jsTruthy item.thumbnail_url then item.thumbnail_url else none
        authorName :=
          match item.poster_id with
          | some pid =>
            match users.find? (fun u => u.id == pid) with
            | some u => u.name
            | none => "Unknown Author"
          | none =>
            match item.authorName with
            | some an => an
            | none => "Unknown Author"
        authorHandle :=
          match item.poster_id with
          | some pid =>
            match users.find? (fun u => u.id == pid) with
            | some u => u.handle
            | none => "unknownhandle"
          | none =>
            match item.authorName with
            | some _ => jsOrD item.authorHandle "unknownhandle"
            | none => "unknownhandle"
        caption := jsOrD item.message "No caption" }
  else
    none

/-- The feed view-model under the amended C4 mapping rule. -/
def specProcessedFeedItemsAmended (posts : List PostItem) (users : List User) :
    List VideoPlayerData :=
  posts.filterMap (specMapPostItemAmended users)

theorem jsOr_eq_of_truthy_or (a b : Option String) :
    jsTruthy (jsOr a b) = (jsTruthy a || jsTruthy b) := by
  unfold jsOr
  by_cases h : jsTruthy a = true
  · simp [h]
  · simp at h
    simp [h]

theorem mapPostItem_eq_amended (users : List User) (item : PostItem) :
    mapPostItem users item = specMapPostItemAmended users item := by
  simp only [mapPostItem, specMapPostItemAmended, jsOr_eq_of_truthy_or]
  cases hp : item.poster_id with
  | none =>
    cases ha : item.authorName with
    | none => simp
    | some an => simp
  | some pid =>
    cases hf : users.find? (fun u => u.id == pid) with
    | none => simp [hf]
    | some u => simp [hf]

/-- C4 counterexample: on a fixture consisting of one video post that
carries its own author fields and no `poster_id`, the code's
`processedFeedItems` keeps the item's author ("Alice"/"alice") while
the claim's mapping rule would produce "Unknown Author"/"unknownhandle"
(no matching user exists), so the two disagree. -/
theorem processedFeedItems_deviates_from_claimed_mapping :
    processedFeedItems [legacyPost] [] ≠ specProcessedFeedItems [legacyPost] []
    ∧ (processedFeedItems [legacyPost] []).map VideoPlayerData.authorName = ["Alice"]
    ∧ (specProcessedFeedItems [legacyPost] []).map VideoPlayerData.authorName
        = ["Unknown Author"] := by
  refine ⟨by decide, by decide, by decide⟩

/-- C4 amended: over any fixture contents, `processedFeedItems` is
exactly the claim's filter-and-map view-model, with the author rule
amended so that a post carrying its own `authorName` (and no
`poster_id`) keeps its own author fields. -/
theorem processedFeedItems_matches_amended_mapping
    (posts : List PostItem) (users : List User) :
    processedFeedItems posts users = specProcessedFeedItemsAmended posts users := by
  unfold processedFeedItems specProcessedFeedItemsAmended
  induction posts with
  | nil => rfl
  | cons p ps ih =>
    rw [List.filterMap_cons, List.filterMap_cons, mapPostItem_eq_amended, ih]

/-- C5 counterexample: at a concrete component state, a video load
failure does more than log — it writes the failure message into the
`error` state hook and clears `isLoading`, so the post-failure state
differs from the pre-failure state. -/
theorem video_error_changes_component_state :
    sState0.error = none ∧ sState0.isLoading = true
    ∧ (videoOnError "network request failed" sState0).1.error
        = some "Failed to load video. network request failed"
    ∧ (videoOnError "network request failed" sState0).1.isLoading = false
    ∧ (videoOnError "network request failed" sState0).1 ≠ sState0 := by
  refine ⟨rfl, rfl, rfl, rfl, by decide⟩

/-- C5 amended: an image load failure only logs (the drawer state is
unchanged); a video load failure additionally records the message in
the `error` state and clears `isLoading`, leaving `isPlaying`,
`mounted` and `currentVideo` unchanged — and the playback-status error
branch behaves the same way. -/
theorem error_handling_logs_and_video_error_state (s : VState) (d : DrawerState)
    (e : String) :
    (imageOnError e d).1 = d
    ∧ ((videoOnError e s).1.error = some ("Failed to load video. " ++ e)
      ∧ (videoOnError e s).1.isLoading = false
      ∧ (videoOnError e s).1.isPlaying = s.isPlaying
      ∧ (videoOnError e s).1.mounted = s.mounted
      ∧ (videoOnError e s).1.currentVideo = s.currentVideo)
    ∧ ((playbackStatusError e s).1.error = some ("Video Error: " ++ e)
      ∧ (playbackStatusError e s).1.isLoading = false
      ∧ (playbackStatusError e s).1.isPlaying = s.isPlaying
      ∧ (playbackStatusError e s).1.mounted = s.mounted
      ∧ (playbackStatusError e s).1.currentVideo = s.currentVideo) :=
  ⟨rfl, ⟨rfl, rfl, rfl, rfl, rfl⟩, ⟨rfl, rfl, rfl, rfl, rfl⟩⟩

/-- C6: with a mounted handle, `handlePlayPause` toggles `isPlaying`
(pausing when playing, playing when paused) and applying it twice
returns `isPlaying` to its original value. -/
theorem handlePlayPause_toggles (s : VState) (h : s.mounted = true) :
    (s.isPlaying = true →
      (handlePlayPause s).2 = [VCmd.pause] ∧ (handlePlayPause s).1.isPlaying = false)
    ∧ (s.isPlaying = false →
      (handlePlayPause s).2 = [VCmd.play] ∧ (handlePlayPause s).1.isPlaying = true)
    ∧ (handlePlayPause (handlePlayPause s).1).1.isPlaying = s.isPlaying := by
  unfold handlePlayPause
  cases hp : s.isPlaying <;> simp [h, hp]

/-- Witness for C6 at the sample mounted, non-playing state. -/
theorem handlePlayPause_toggles_witness :
    sState0.mounted = true ∧
    ((sState0.isPlaying = true →
      (handlePlayPause sState0).2 = [VCmd.pause]
        ∧ (handlePlayPause sState0).1.isPlaying = false)
    ∧ (sState0.isPlaying = false →
      (handlePlayPause sState0).2 = [VCmd.play]
        ∧ (handlePlayPause sState0).1.isPlaying = true)
    ∧ (handlePlayPause (handlePlayPause sState0).1).1.isPlaying = sState0.isPlaying) :=
  ⟨by decide, handlePlayPause_toggles sState0 (by decide)⟩

/-- C7: the feed view-model computation is deterministic in the fixture
contents — two evaluations over equal posts and users fixtures give
the same `processedFeedItems`. -/
theorem processedFeedItems_deterministic (p1 p2 : List PostItem)
    (u1 u2 : List User) (hp : p1 = p2) (hu : u1 = u2) :
    processedFeedItems p1 u1 = processedFeedItems p2 u2 := by
  rw [hp, hu]

/-- Witness for C7 at a concrete fixture. -/
theorem processedFeedItems_deterministic_witness :
    ([legacyPost] : List PostItem) = [legacyPost]
    ∧ ([] : List User) = []
    ∧ processedFeedItems [legacyPost] [] = processedFeedItems [legacyPost] [] :=
  ⟨rfl, rfl, processedFeedItems_deterministic [legacyPost] [legacyPost] [] [] rfl rfl⟩

/-- C8: with no processed items `HomeScreen` renders the empty-feed
message and not the list; with at least one item it renders the list
of cards. -/
theorem homeScreen_empty_feed_branch (items : List VideoPlayerData)
    (active : Option String) :
    (items = [] →
      homeScreen items active =
        HomeRender.emptyFeed "No videos available at the moment."
          "Please check back later or ensure 'dummy/posts.json' has video entries.")
    ∧ (items ≠ [] →
      homeScreen items active = HomeRender.feedList (items.map (renderVideoItem active))) := by
  constructor
  · intro he
    subst he
    rfl
  · intro hne
    have hlen : (items.length == 0) = false := by
      simpa using hne
    unfold homeScreen
    rw [hlen]
    simp

/-- Witness for C8: the empty feed renders the message, a one-item feed
renders the list. -/
theorem homeScreen_empty_feed_branch_witness :
    homeScreen [] none =
      HomeRender.emptyFeed "No videos available at the moment."
        "Please check back later or ensure 'dummy/posts.json' has video entries."
    ∧ homeScreen [vA] none = HomeRender.feedList ([vA].map (renderVideoItem none)) :=
  ⟨(homeScreen_empty_feed_branch [] none).1 rfl,
   (homeScreen_empty_feed_branch [vA] none).2 (by decide)⟩

/-- C9: `handleSimilarVideoSelect` overwrites exactly the `id`,
`videoSource`, `posterSource` and `caption` fields of the current video
from the selected similar video, and keeps `authorName` and
`authorHandle` from the original video. -/
theorem similar_select_updates_only_video_fields (isActive : Bool)
    (selectedVideo : SimilarVideoData) (s : VState) :
    ((handleSimilarVideoSelect isActive selectedVideo s).1.currentVideo.id
        = selectedVideo.id)
    ∧ ((handleSimilarVideoSelect isActive selectedVideo s).1.currentVideo.videoSource
        = selectedVideo.media_url)
    ∧ ((handleSimilarVideoSelect isActive selectedVideo s).1.currentVideo.posterSource
        = selectedVideo.thumbnail_url)
    ∧ ((handleSimilarVideoSelect isActive selectedVideo s).1.currentVideo.caption
        = selectedVideo.title)
    ∧ ((handleSimilarVideoSelect isActive selectedVideo s).1.currentVideo.authorName
        = s.currentVideo.authorName)
    ∧ ((handleSimilarVideoSelect isActive selectedVideo s).1.currentVideo.authorHandle
        = s.currentVideo.authorHandle) := by
  unfold handleSimilarVideoSelect
  cases hm : s.mounted <;> simp

/-- C10: `activeVideoId` starts as null and is only overwritten by the
id of the first viewable item of a non-empty viewability callback;
empty callbacks, non-viewable first entries and first entries with no
item leave it unchanged, and once set it never returns to null. -/
theorem activeVideoId_update_policy :
    initialActiveVideoId = none
    ∧ (∀ a : Option String, onViewableItemsChanged [] a = a)
    ∧ (∀ (t : ViewToken) (rest : List ViewToken) (a : Option String),
        t.isViewable = false → onViewableItemsChanged (t :: rest) a = a)
    ∧ (∀ (t : ViewToken) (rest : List ViewToken) (a : Option String),
        t.item = none → onViewableItemsChanged (t :: rest) a = a)
    ∧ (∀ (t : ViewToken) (rest : List ViewToken) (a : Option String)
        (it : VideoPlayerData),
        t.isViewable = true → t.item = some it →
        onViewableItemsChanged (t :: rest) a = some it.id)
    ∧ (∀ (v : List ViewToken) (x : String),
        (onViewableItemsChanged v (some x)).isSome = true) := by
  refine ⟨rfl, fun a => rfl, ?_, ?_, ?_, ?_⟩
  · intro t rest a ht
    simp only [onViewableItemsChanged]
    simp [ht]
  · intro t rest a hi
    simp only [onViewableItemsChanged, hi]
    cases t.isViewable <;> simp
  · intro t rest a it hv hi
    simp only [onViewableItemsChanged, hv, hi]
    simp
  · intro v x
    cases v with
    | nil => rfl
    | cons t rest =>
      simp only [onViewableItemsChanged]
      cases ht : t.isViewable
      · simp [ht]
      · cases hi : t.item <;> simp [ht, hi]

/-- Witness for C10 at concrete viewability callbacks. -/
theorem activeVideoId_update_policy_witness :
    onViewableItemsChanged [⟨false, some vA⟩] (some "a") = some "a"
    ∧ onViewableItemsChanged [⟨true, none⟩] (some "a") = some "a"
    ∧ onViewableItemsChanged [⟨true, some vB⟩] (some "a") = some "b"
    ∧ (onViewableItemsChanged [] (some "a")).isSome = true :=
  ⟨activeVideoId_update_policy.2.2.1 ⟨false, some vA⟩ [] (some "a") rfl,
   activeVideoId_update_policy.2.2.2.1 ⟨true, none⟩ [] (some "a") rfl,
   activeVideoId_update_policy.2.2.2.2.1 ⟨true, some vB⟩ [] (some "a") vB rfl rfl,
   activeVideoId_update_policy.2.2.2.2.2 [] "a"⟩
